import Mathlib

/-!
Shallow embedding of `src/trunk/src/common/crypto.c` (an early Tor
cryptographic abstraction layer over OpenSSL).

Provider calls (OpenSSL) are modelled as explicit parameters: a function
that may fail is given the provider's outcome as an argument (for example
the `Option RSAKey` a PEM parse would produce, or the `Int` a provider
primitive would return).  Heap effects are made observable through event
logs: each operation that allocates or releases a resource also returns
the ordered list of allocation/release events it performed.
-/

namespace TorCrypto

/-- A released or allocated resource kind, used in event logs. -/
inductive Res
  | envRes      -- the cipher handle struct itself
  | auxRes      -- the EVP streaming context buffer
  | ivRes       -- the IV buffer
  | keyRes      -- the key buffer
  | pkEnvRes    -- the public-key handle struct itself
  | rsaKeyRes   -- the underlying RSA key material
deriving DecidableEq, Repr

/-- An allocation or release event. -/
inductive Ev
  | alloc (r : Res)
  | free (r : Res)
deriving DecidableEq, Repr

/-- Resources allocated in an event log, in order. -/
def allocsOf (log : List Ev) : List Res :=
  log.filterMap fun e => match e with | .alloc r => some r | .free _ => none

/-- Resources released in an event log, in order. -/
def freesOf (log : List Ev) : List Res :=
  log.filterMap fun e => match e with | .alloc _ => none | .free r => some r

/-! ## Algorithm registry (crypto.c lines 40-74)

`CRYPTO_CIPHER_IDENTITY`, `CRYPTO_CIPHER_DES`, `CRYPTO_CIPHER_RC4`,
`CRYPTO_CIPHER_3DES` are the enumerated cipher tags declared in crypto.h;
crypto.c switches over exactly these (any other value hits `assert(0)`,
a fatal programming error per the registry contract). -/

/-- The enumerated cipher algorithm tags. -/
inductive CipherType
  | identity
  | des
  | rc4
  | tripleDes
deriving DecidableEq, Repr, Fintype

/-- `crypto_cipher_iv_length` (crypto.c lines 40-50). -/
def crypto_cipher_iv_length : CipherType → Nat
  | .identity => 0
  | .des => 8
  | .rc4 => 16
  | .tripleDes => 8

/-- `crypto_cipher_key_length` (crypto.c lines 52-62). -/
def crypto_cipher_key_length : CipherType → Nat
  | .identity => 0
  | .des => 8
  | .rc4 => 16
  | .tripleDes => 16

/-- `crypto_cipher_evp_cipher` (crypto.c lines 64-74) returns a non-NULL
EVP cipher for every enumerated tag (identity maps to `EVP_enc_null()`,
which is a real cipher object).  We model only NULL-ness, which is all
crypto.c inspects. -/
def crypto_cipher_evp_cipher_isSome : CipherType → Bool
  | .identity => true
  | .des => true
  | .rc4 => true
  | .tripleDes => true

/-! ## Symmetric-cipher handle -/

/-- `crypto_cipher_env_t`: tag, owned key buffer, owned IV buffer, and the
streaming-context slot `aux`.  Buffers are modelled by their contents
(`List Nat` of bytes); `none` models a NULL pointer.  `aux` records whether
the EVP context buffer is allocated. -/
structure CipherEnv where
  type : CipherType
  key : Option (List Nat)
  iv : Option (List Nat)
  aux : Bool
deriving DecidableEq, Repr

/-- The error path of `crypto_new_cipher_env` (crypto.c lines 213-222):
frees, in order, the key buffer, the IV buffer, the aux buffer (each only
if present), then the env struct itself. -/
def newCipherErrFrees (key iv : Option (List Nat)) (aux : Bool) : List Ev :=
  (if key.isSome then [Ev.free .keyRes] else [])
    ++ (if iv.isSome then [Ev.free .ivRes] else [])
    ++ (if aux then [Ev.free .auxRes] else [])
    ++ [Ev.free .envRes]

/-- `crypto_new_cipher_env` (crypto.c lines 181-223).  The Booleans model
the outcomes of the three checked `malloc` calls (env struct, IV buffer,
key buffer; the aux `malloc` is not NULL-checked by the source, so we model
the executions in which it succeeds).  Returns the constructed handle (or
`none` on failure) together with the ordered allocation/release event log.
Freshly malloc'd buffer contents are indeterminate; we represent them as
zero bytes — only their length is meaningful. -/
def crypto_new_cipher_env (t : CipherType) (envOk ivOk keyOk : Bool) :
    Option CipherEnv × List Ev :=
  if envOk = false then (none, [])
  else
    let ivLen := crypto_cipher_iv_length t
    let keyLen := crypto_cipher_key_length t
    -- every enumerated tag has an EVP cipher, so the aux context is allocated.
    let log0 : List Ev := [Ev.alloc .envRes, Ev.alloc .auxRes]
    if ivLen ≠ 0 ∧ ivOk = false then
      (none, log0 ++ newCipherErrFrees none none true)
    else
      let iv : Option (List Nat) :=
        if ivLen ≠ 0 then some (List.replicate ivLen 0) else none
      let log1 := log0 ++ (if ivLen ≠ 0 then [Ev.alloc .ivRes] else [])
      if keyLen ≠ 0 ∧ keyOk = false then
        (none, log1 ++ newCipherErrFrees none iv true)
      else
        let key : Option (List Nat) :=
          if keyLen ≠ 0 then some (List.replicate keyLen 0) else none
        let log2 := log1 ++ (if keyLen ≠ 0 then [Ev.alloc .keyRes] else [])
        (some { type := t, key := key, iv := iv, aux := true }, log2)

/-- `crypto_free_cipher_env` (crypto.c lines 225-243).  For every enumerated
tag the EVP cipher exists, so the source asserts `env->aux`; an absent aux
context is an assertion failure, modelled as `none`.  Otherwise it frees,
in order, the aux context, then the IV buffer (if present), then the key
buffer (if present), then the env struct. -/
def crypto_free_cipher_env (env : CipherEnv) : Option (List Ev) :=
  if crypto_cipher_evp_cipher_isSome env.type ∧ env.aux = false then
    none
  else
    some ((if env.aux then [Ev.free .auxRes] else [])
      ++ (if env.iv.isSome then [Ev.free .ivRes] else [])
      ++ (if env.key.isSome then [Ev.free .keyRes] else [])
      ++ [Ev.free .envRes])

/-- `crypto_cipher_set_iv` (crypto.c lines 562-577).  `src i` is the i-th
byte of the caller's input buffer.  Returns the C result code and the
updated handle. -/
def crypto_cipher_set_iv (env : CipherEnv) (src : Nat → Nat) : Int × CipherEnv :=
  let ivLen := crypto_cipher_iv_length env.type
  if ivLen = 0 then (0, env)
  else
    match env.iv with
    | none => (-1, env)
    | some _ => (0, { env with iv := some ((List.range ivLen).map src) })

/-- `crypto_cipher_set_key` (crypto.c lines 579-594). -/
def crypto_cipher_set_key (env : CipherEnv) (src : Nat → Nat) : Int × CipherEnv :=
  let keyLen := crypto_cipher_key_length env.type
  if keyLen = 0 then (0, env)
  else
    match env.key with
    | none => (-1, env)
    | some _ => (0, { env with key := some ((List.range keyLen).map src) })

/-! ## Public-key handle -/

/-- The (only) public-key kind declared in crypto.h, `CRYPTO_PK_RSA`,
modelled by its enumerated value. -/
def CRYPTO_PK_RSA : Nat := 0

/-- An OpenSSL `RSA` structure, as far as crypto.c inspects it: the public
modulus `n`, the public exponent `e` and the first secret prime `p` are
BIGNUM pointers that may each be NULL (`RSA_new` leaves all of them NULL;
loading a public key leaves `p` NULL).  BIGNUM values are modelled as
integers. -/
structure RSAKey where
  n : Option Int
  e : Option Int
  p : Option Int
deriving DecidableEq, Repr

/-- `crypto_pk_env_t`: kind tag, reference count, key-material slot. -/
structure PkEnv where
  type : Nat
  refs : Int
  key : Option RSAKey
deriving DecidableEq, Repr

/-- `crypto_new_pk_env` (crypto.c lines 88-116).  `envOk` models the env
`malloc` outcome and `rsaNewOk` the `RSA_new` outcome.  A fresh `RSA_new`
object has all BIGNUM fields NULL. -/
def crypto_new_pk_env (type : Nat) (envOk rsaNewOk : Bool) : Option PkEnv :=
  if envOk = false then none
  else if type = CRYPTO_PK_RSA then
    if rsaNewOk then
      some { type := type, refs := 1, key := some { n := none, e := none, p := none } }
    else none
  else none

/-- `crypto_free_pk_env` (crypto.c lines 118-136): decrements the reference
count; if it is still positive nothing is released, otherwise the RSA key
material (when the kind is RSA and the slot is non-NULL) and then the
handle struct are freed.  Returns the surviving handle (or `none` once
freed) and the release events. -/
def crypto_free_pk_env (env : PkEnv) : Option PkEnv × List Ev :=
  if env.refs - 1 > 0 then
    (some { env with refs := env.refs - 1 }, [])
  else if env.type = CRYPTO_PK_RSA ∧ env.key.isSome then
    (none, [Ev.free .rsaKeyRes, Ev.free .pkEnvRes])
  else
    (none, [Ev.free .pkEnvRes])

/-- Result of `crypto_pk_dup_key`: the source first asserts
`env && env->key`, then returns NULL for a non-RSA kind, and otherwise
bumps the reference count and returns the same handle. -/
inductive DupResult
  | assertFail
  | nullHandle
  | ok (env : PkEnv)
deriving DecidableEq, Repr

/-- `crypto_pk_dup_key` (crypto.c lines 506-518).  For the RSA kind it
increments `refs` and returns the very same handle (no allocation event,
every other field untouched). -/
def crypto_pk_dup_key (env : PkEnv) : DupResult :=
  if env.key.isNone then .assertFail
  else if env.type = CRYPTO_PK_RSA then .ok { env with refs := env.refs + 1 }
  else .nullHandle

/-- `crypto_pk_generate_key` (crypto.c lines 246-263).  `generated` models
the outcome of the provider's `RSA_generate_key(1024, 65537, ...)` call.
Any existing key material is freed before the attempt; on provider failure
the slot is left NULL.  Returns the C result code, the updated handle and
the release events. -/
def crypto_pk_generate_key (env : PkEnv) (generated : Option RSAKey) :
    Int × PkEnv × List Ev :=
  if env.type = CRYPTO_PK_RSA then
    let evs := if env.key.isSome then [Ev.free .rsaKeyRes] else []
    match generated with
    | none => (-1, { env with key := none }, evs)
    | some k => (0, { env with key := some k }, evs)
  else (-1, env, [])

/-- `crypto_pk_read_private_key_from_file` (crypto.c lines 265-282).
`parsed` models the outcome of `PEM_read_RSAPrivateKey` on the stream. -/
def crypto_pk_read_private_key_from_file (env : PkEnv) (parsed : Option RSAKey) :
    Int × PkEnv × List Ev :=
  if env.type = CRYPTO_PK_RSA then
    let evs := if env.key.isSome then [Ev.free .rsaKeyRes] else []
    match parsed with
    | none => (-1, { env with key := none }, evs)
    | some k => (0, { env with key := some k }, evs)
  else (-1, env, [])

/-- `crypto_pk_read_public_key_from_string` (crypto.c lines 384-407).
`parsed` models the outcome of `PEM_read_bio_RSAPublicKey` on the memory
BIO; the old key is passed to `RSA_free` (which tolerates NULL)
unconditionally before the parse result is examined. -/
def crypto_pk_read_public_key_from_string (env : PkEnv) (parsed : Option RSAKey) :
    Int × PkEnv × List Ev :=
  if env.type = CRYPTO_PK_RSA then
    let evs := if env.key.isSome then [Ev.free .rsaKeyRes] else []
    match parsed with
    | none => (-1, { env with key := none }, evs)
    | some k => (0, { env with key := some k }, evs)
  else (-1, env, [])

/-- `crypto_pk_check_key` (crypto.c lines 444-454).  `RSA_check_key_ret`
models the provider's verdict on the handle's key slot: 1 = consistent,
0 = inconsistent, -1 = internal provider error. -/
def crypto_pk_check_key (env : PkEnv) (RSA_check_key_ret : Option RSAKey → Int) : Int :=
  if env.type = CRYPTO_PK_RSA then RSA_check_key_ret env.key else -1

/-- Which branch of `crypto_pk_read_private_key_from_filename` produced the
result.  The source reports every failure as -1; the branches are
nevertheless distinct code paths (with distinct log messages), and the
spec's error kinds name them. -/
inductive LoadPath
  | okLoad
  | invalidPath
  | fileOpenFailed
  | keyParseFailed
  | keyInvalid
  | checkFailed
  | fellThrough
deriving DecidableEq, Repr

/-- `crypto_pk_read_private_key_from_filename` (crypto.c lines 284-326).
`legalChars` models membership in `CONFIG_LEGAL_FILENAME_CHARACTERS`
(declared outside this file; the C test
`strspn(keyfile, LEGAL) == strlen(keyfile)` holds exactly when every
character of the filename is legal).  `openOk` models the `fopen` outcome,
`parsed` the PEM parse outcome, `RSA_check_key_ret` the provider's key
check.  Returns (result code, whether `fopen` was attempted, which branch
fired, updated handle). -/
def crypto_pk_read_private_key_from_filename (env : PkEnv) (keyfile : List Char)
    (legalChars : Char → Bool) (openOk : Bool) (parsed : Option RSAKey)
    (RSA_check_key_ret : Option RSAKey → Int) :
    Int × Bool × LoadPath × PkEnv :=
  if keyfile.all legalChars then
    if openOk = false then (-1, true, .fileOpenFailed, env)
    else
      let r := crypto_pk_read_private_key_from_file env parsed
      if r.1 = -1 then (-1, true, .keyParseFailed, r.2.1)
      else
        let c := crypto_pk_check_key r.2.1 RSA_check_key_ret
        if c = 0 then (-1, true, .keyInvalid, r.2.1)
        else if c = -1 then (-1, true, .checkFailed, r.2.1)
        else if c = 1 then (0, true, .okLoad, r.2.1)
        else (-1, true, .fellThrough, r.2.1)
  else (-1, false, .invalidPath, env)

/-- OpenSSL `BN_cmp`: sign of the comparison of two BIGNUM values. -/
def BN_cmp (a b : Int) : Int :=
  if a < b then -1 else if a = b then 0 else 1

/-- `crypto_pk_cmp_keys` (crypto.c lines 475-497).  Takes possibly-NULL
handle pointers.  Returns `some r` for a normal return of `r`, and `none`
for the assertion failure the source raises when a present key lacks a
public component (`assert(a->n && a->e && b->n && b->e)`). -/
def crypto_pk_cmp_keys (a b : Option PkEnv) : Option Int :=
  match a, b with
  | none, _ => some (-1)
  | some _, none => some (-1)
  | some a, some b =>
    match a.key, b.key with
    | none, _ => some (-1)
    | some _, none => some (-1)
    | some ka, some kb =>
      if a.type ≠ b.type then some (-1)
      else if a.type = CRYPTO_PK_RSA then
        match ka.n, ka.e, kb.n, kb.e with
        | some na, some ea, some nb, some eb =>
          if BN_cmp na nb ≠ 0 then some (BN_cmp na nb)
          else some (BN_cmp ea eb)
        | _, _, _, _ => none
      else some (-1)

/-- `crypto_pk_private_decrypt` (crypto.c lines 532-544).  `providerRet`
models the `RSA_private_decrypt` outcome.  Returns `some (code, invoked)`
where `invoked` records whether the provider primitive was called; `none`
models the NULL dereference the source performs on a handle whose key slot
is NULL. -/
def crypto_pk_private_decrypt (env : PkEnv) (providerRet : Int) :
    Option (Int × Bool) :=
  if env.type = CRYPTO_PK_RSA then
    match env.key with
    | none => none
    | some k =>
      match k.p with
      | none => some (-1, false)
      | some _ => some (providerRet, true)
  else some (-1, false)

/-! ## Random facade -/

/-- `crypto_rand` (crypto.c lines 648-652):
`return (RAND_bytes(to, n) != 1);`.  `RAND_bytes_ret n` models the
provider's return value when asked for `n` strong random bytes
(1 = delivered, anything else = failure). -/
def crypto_rand (n : Nat) (RAND_bytes_ret : Nat → Int) : Int :=
  if RAND_bytes_ret n ≠ 1 then 1 else 0

/-- `crypto_pseudo_rand` (crypto.c lines 654-658):
`return (RAND_pseudo_bytes(to, n) == -1);`.  The provider returns 1 when
the bytes are cryptographically strong, 0 when they were generated but are
weak, and -1 on error. -/
def crypto_pseudo_rand (n : Nat) (RAND_pseudo_bytes_ret : Nat → Int) : Int :=
  if RAND_pseudo_bytes_ret n = -1 then 1 else 0

/-! ## Helper lemmas -/

theorem BN_cmp_eq_zero_iff (a b : Int) : BN_cmp a b = 0 ↔ a = b := by
  unfold BN_cmp
  split_ifs with h1 h2
  · constructor
    · intro h
      exact absurd h (by decide)
    · intro h
      omega
  · simp [h2]
  · constructor
    · intro h
      exact absurd h (by decide)
    · intro h
      exact absurd h h2

theorem evp_cipher_exists (t : CipherType) :
    crypto_cipher_evp_cipher_isSome t = true := by
  cases t <;> rfl

/-! ## Claim theorems -/

/-- C1: a public-key handle is created with reference count 1;
`crypto_pk_dup_key` increments the count and returns the very same handle
(only `refs` changes — the key slot is the identical value, no copy and no
allocation); `crypto_free_pk_env` decrements the count, releasing the key
material and the handle exactly when the count reaches zero.  In the
create/duplicate/destroy/destroy scenario the key material survives the
first destroy and is released exactly once by the second. -/
theorem pk_handle_refcount_lifecycle :
    ∀ e0 : PkEnv, crypto_new_pk_env CRYPTO_PK_RSA true true = some e0 →
      e0.refs = 1 ∧
      (∀ (env : PkEnv) (k : RSAKey), env.type = CRYPTO_PK_RSA → env.key = some k →
        crypto_pk_dup_key env = .ok { env with refs := env.refs + 1 }) ∧
      (∀ env : PkEnv, env.refs - 1 > 0 →
        crypto_free_pk_env env = (some { env with refs := env.refs - 1 }, [])) ∧
      (∀ (env : PkEnv) (k : RSAKey), ¬env.refs - 1 > 0 → env.type = CRYPTO_PK_RSA →
        env.key = some k →
        crypto_free_pk_env env = (none, [Ev.free .rsaKeyRes, Ev.free .pkEnvRes])) ∧
      (crypto_pk_dup_key e0 = .ok { e0 with refs := 2 } ∧
        crypto_free_pk_env { e0 with refs := 2 } = (some { e0 with refs := 1 }, []) ∧
        ({ e0 with refs := 1 } : PkEnv).key = e0.key ∧
        crypto_free_pk_env { e0 with refs := 1 } =
          (none, [Ev.free .rsaKeyRes, Ev.free .pkEnvRes])) := by
  intro e0 h0
  simp only [crypto_new_pk_env, CRYPTO_PK_RSA, Bool.true_eq_false, if_false,
    if_true, ite_true, ite_false, Option.some.injEq, reduceIte] at h0
  refine ⟨?_, ?_, ?_, ?_, ?_⟩
  · rw [← h0]
  · intro env k ht hk
    simp [crypto_pk_dup_key, ht, hk, CRYPTO_PK_RSA]
  · intro env h
    simp [crypto_free_pk_env, h]
  · intro env k h ht hk
    simp [crypto_free_pk_env, h, ht, hk, CRYPTO_PK_RSA]
  · rw [← h0]
    refine ⟨by decide, by decide, by decide, by decide⟩

/-- C1 witness: the lifecycle theorem applied to the concrete handle
produced by `crypto_new_pk_env CRYPTO_PK_RSA true true`. -/
theorem pk_handle_refcount_lifecycle_witness :
    crypto_pk_dup_key ⟨CRYPTO_PK_RSA, 1, some ⟨none, none, none⟩⟩ =
      .ok ⟨CRYPTO_PK_RSA, 2, some ⟨none, none, none⟩⟩ ∧
    crypto_free_pk_env ⟨CRYPTO_PK_RSA, 2, some ⟨none, none, none⟩⟩ =
      (some ⟨CRYPTO_PK_RSA, 1, some ⟨none, none, none⟩⟩, []) ∧
    crypto_free_pk_env ⟨CRYPTO_PK_RSA, 1, some ⟨none, none, none⟩⟩ =
      (none, [Ev.free .rsaKeyRes, Ev.free .pkEnvRes]) := by
  have h := pk_handle_refcount_lifecycle ⟨CRYPTO_PK_RSA, 1, some ⟨none, none, none⟩⟩ rfl
  exact ⟨h.2.2.2.2.1, h.2.2.2.2.2.1, h.2.2.2.2.2.2.2⟩

/-- C2: `crypto_pk_cmp_keys` returns -1 ("incomparable") when either handle
lacks key material or the kinds differ; with both keys present and both
public components present it compares the modulus first and then the public
exponent, the first unequal component determining the result; with a public
component absent the source asserts (modelled as `none`), per the spec's
own note on this routine. -/
theorem pk_cmp_keys_public_components :
    ∀ a b : PkEnv,
      ((a.key = none ∨ b.key = none) →
        crypto_pk_cmp_keys (some a) (some b) = some (-1)) ∧
      (a.type ≠ b.type → crypto_pk_cmp_keys (some a) (some b) = some (-1)) ∧
      (∀ ka kb na ea nb eb,
        a.key = some ka → b.key = some kb →
        a.type = CRYPTO_PK_RSA → b.type = CRYPTO_PK_RSA →
        ka.n = some na → ka.e = some ea → kb.n = some nb → kb.e = some eb →
        crypto_pk_cmp_keys (some a) (some b) =
          some (if na ≠ nb then BN_cmp na nb else BN_cmp ea eb)) ∧
      (∀ ka kb, a.key = some ka → b.key = some kb → a.type = b.type →
        a.type = CRYPTO_PK_RSA →
        (ka.n = none ∨ ka.e = none ∨ kb.n = none ∨ kb.e = none) →
        crypto_pk_cmp_keys (some a) (some b) = none) := by
  intro a b
  refine ⟨?_, ?_, ?_, ?_⟩
  · rintro (h | h) <;> cases hb : b.key <;> cases ha : a.key <;>
      simp_all [crypto_pk_cmp_keys]
  · intro h
    cases ha : a.key <;> cases hb : b.key <;>
      simp_all [crypto_pk_cmp_keys]
  · intro ka kb na ea nb eb ha hb hta htb hn he hn2 he2
    simp only [crypto_pk_cmp_keys, ha, hb, hta, htb, hn, he, hn2, he2,
      ne_eq, not_true_eq_false, if_false, if_true, reduceIte]
    by_cases hnn : na = nb
    · subst hnn
      simp [BN_cmp_eq_zero_iff]
    · have : BN_cmp na nb ≠ 0 := fun h => hnn ((BN_cmp_eq_zero_iff na nb).mp h)
      simp [this, hnn]
  · intro ka kb ha hb htab hta h
    have htb : b.type = CRYPTO_PK_RSA := htab ▸ hta
    obtain ⟨kan, kae, kap⟩ := ka
    obtain ⟨kbn, kbe, kbp⟩ := kb
    cases kan <;> cases kae <;> cases kbn <;> cases kbe <;>
      simp_all [crypto_pk_cmp_keys]

/-- C2 witness: two RSA handles with equal moduli and different public
exponents compare by the exponent; handles with different kinds are
incomparable. -/
theorem pk_cmp_keys_public_components_witness :
    crypto_pk_cmp_keys
        (some ⟨CRYPTO_PK_RSA, 1, some ⟨some 7, some 3, none⟩⟩)
        (some ⟨CRYPTO_PK_RSA, 1, some ⟨some 7, some 5, none⟩⟩) =
      some (if (7 : Int) ≠ 7 then BN_cmp 7 7 else BN_cmp 3 5) := by
  have h := pk_cmp_keys_public_components
    ⟨CRYPTO_PK_RSA, 1, some ⟨some 7, some 3, none⟩⟩
    ⟨CRYPTO_PK_RSA, 1, some ⟨some 7, some 5, none⟩⟩
  exact h.2.2.1 ⟨some 7, some 3, none⟩ ⟨some 7, some 5, none⟩ 7 3 7 5
    rfl rfl rfl rfl rfl rfl rfl rfl

/-- C3 counterexample: on a fully-constructed RC4 handle,
`crypto_free_cipher_env` releases the streaming context, then the IV
buffer, then the key buffer — so the claimed order (context, then key,
then IV) is not a subsequence of the actual release log: the key buffer is
not released before the IV buffer. -/
theorem free_cipher_env_order_counterexample :
    crypto_free_cipher_env
        ⟨CipherType.rc4, some (List.replicate 16 0), some (List.replicate 16 0), true⟩ =
      some [Ev.free .auxRes, Ev.free .ivRes, Ev.free .keyRes, Ev.free .envRes] ∧
    ¬List.Sublist [Ev.free Res.auxRes, Ev.free Res.keyRes, Ev.free Res.ivRes]
        [Ev.free Res.auxRes, Ev.free Res.ivRes, Ev.free Res.keyRes, Ev.free Res.envRes] := by
  decide

/-- C3 (amended): for every cipher handle whose streaming context is
present (as construction guarantees for every enumerated tag),
`crypto_free_cipher_env` succeeds and releases the streaming context
first, then the IV buffer, then the key buffer, in that order, releasing
exactly the buffers that are present and tolerating the absence of either
buffer. -/
theorem free_cipher_env_release_order :
    ∀ env : CipherEnv, env.aux = true →
      ∃ l, crypto_free_cipher_env env = some l ∧
        Ev.free Res.auxRes ∈ l ∧
        (Ev.free Res.ivRes ∈ l ↔ env.iv.isSome = true) ∧
        (Ev.free Res.keyRes ∈ l ↔ env.key.isSome = true) ∧
        List.Sublist l
          [Ev.free Res.auxRes, Ev.free Res.ivRes, Ev.free Res.keyRes,
            Ev.free Res.envRes] := by
  intro env h
  have he : ¬(crypto_cipher_evp_cipher_isSome env.type ∧ env.aux = false) := by
    simp [h]
  refine ⟨(if env.aux then [Ev.free Res.auxRes] else [])
      ++ (if env.iv.isSome then [Ev.free Res.ivRes] else [])
      ++ (if env.key.isSome then [Ev.free Res.keyRes] else [])
      ++ [Ev.free Res.envRes], ?_, ?_, ?_, ?_, ?_⟩
  · unfold crypto_free_cipher_env
    exact if_neg he
  all_goals cases hiv : env.iv <;> cases hkey : env.key <;>
    simp [h, hiv, hkey]

/-- C3 witness: the amended order theorem applied to a DES handle with an
IV buffer present and the key buffer absent. -/
theorem free_cipher_env_release_order_witness :
    ∃ l, crypto_free_cipher_env ⟨CipherType.des, none, some (List.replicate 8 0), true⟩ =
        some l ∧
      Ev.free Res.auxRes ∈ l ∧
      (Ev.free Res.ivRes ∈ l ↔ (some (List.replicate 8 0)).isSome = true) ∧
      (Ev.free Res.keyRes ∈ l ↔ (none : Option (List Nat)).isSome = true) ∧
      List.Sublist l
        [Ev.free Res.auxRes, Ev.free Res.ivRes, Ev.free Res.keyRes,
          Ev.free Res.envRes] :=
  free_cipher_env_release_order
    ⟨CipherType.des, none, some (List.replicate 8 0), true⟩ rfl

/-- C4: `crypto_pk_read_private_key_from_filename` validates the filename
against the legal-character set first and fails without attempting `fopen`
when a character is disallowed; with a legal filename it fails on a failed
open, fails on a failed PEM parse, and on a successful parse runs the key
check, rejecting (not accepting) a key the provider reports as invalid,
succeeding only when the check returns 1. -/
theorem pk_load_private_from_filename_paths :
    ∀ (env : PkEnv) (keyfile : List Char) (legalChars : Char → Bool)
      (openOk : Bool) (parsed : Option RSAKey) (chk : Option RSAKey → Int),
      (keyfile.all legalChars = false →
        crypto_pk_read_private_key_from_filename env keyfile legalChars openOk parsed chk =
          (-1, false, .invalidPath, env)) ∧
      (keyfile.all legalChars = true → openOk = false →
        crypto_pk_read_private_key_from_filename env keyfile legalChars openOk parsed chk =
          (-1, true, .fileOpenFailed, env)) ∧
      (keyfile.all legalChars = true → openOk = true → env.type = CRYPTO_PK_RSA →
        parsed = none →
        crypto_pk_read_private_key_from_filename env keyfile legalChars openOk parsed chk =
          (-1, true, .keyParseFailed, { env with key := none })) ∧
      (∀ k, keyfile.all legalChars = true → openOk = true → env.type = CRYPTO_PK_RSA →
        parsed = some k → chk (some k) = 0 →
        crypto_pk_read_private_key_from_filename env keyfile legalChars openOk parsed chk =
          (-1, true, .keyInvalid, { env with key := some k })) ∧
      (∀ k, keyfile.all legalChars = true → openOk = true → env.type = CRYPTO_PK_RSA →
        parsed = some k → chk (some k) = 1 →
        crypto_pk_read_private_key_from_filename env keyfile legalChars openOk parsed chk =
          (0, true, .okLoad, { env with key := some k })) := by
  intro env keyfile legalChars openOk parsed chk
  refine ⟨?_, ?_, ?_, ?_, ?_⟩
  · intro h
    simp [crypto_pk_read_private_key_from_filename, h]
  · intro h ho
    simp [crypto_pk_read_private_key_from_filename, h, ho]
  · intro h ho ht hp
    simp [crypto_pk_read_private_key_from_filename,
      crypto_pk_read_private_key_from_file, h, ho, ht, hp]
  · intro k h ho ht hp hc
    simp [crypto_pk_read_private_key_from_filename,
      crypto_pk_read_private_key_from_file, crypto_pk_check_key, h, ho, ht, hp, hc]
  · intro k h ho ht hp hc
    simp [crypto_pk_read_private_key_from_filename,
      crypto_pk_read_private_key_from_file, crypto_pk_check_key, h, ho, ht, hp, hc]

/-- C4 witness: a filename containing a disallowed character fails with
the invalid-path branch and never attempts the open; a legal filename
whose parsed key fails the provider check is rejected. -/
theorem pk_load_private_from_filename_paths_witness :
    crypto_pk_read_private_key_from_filename ⟨CRYPTO_PK_RSA, 1, none⟩
        [Char.ofNat 36] (fun c => c = Char.ofNat 97) true
        (some ⟨some 7, some 3, some 5⟩) (fun _ => 1) =
      (-1, false, .invalidPath, ⟨CRYPTO_PK_RSA, 1, none⟩) ∧
    crypto_pk_read_private_key_from_filename ⟨CRYPTO_PK_RSA, 1, none⟩
        [Char.ofNat 97] (fun c => c = Char.ofNat 97) true
        (some ⟨some 7, some 3, some 5⟩) (fun _ => 0) =
      (-1, true, .keyInvalid, ⟨CRYPTO_PK_RSA, 1, some ⟨some 7, some 3, some 5⟩⟩) := by
  constructor
  · exact (pk_load_private_from_filename_paths ⟨CRYPTO_PK_RSA, 1, none⟩
      [Char.ofNat 36] (fun c => c = Char.ofNat 97) true
      (some ⟨some 7, some 3, some 5⟩) (fun _ => 1)).1 (by decide)
  · exact (pk_load_private_from_filename_paths ⟨CRYPTO_PK_RSA, 1, none⟩
      [Char.ofNat 97] (fun c => c = Char.ofNat 97) true
      (some ⟨some 7, some 3, some 5⟩) (fun _ => 0)).2.2.2.1
      ⟨some 7, some 3, some 5⟩ (by decide) rfl rfl rfl rfl

/-- C5: on an RSA handle whose key material lacks the private component
`p`, `crypto_pk_private_decrypt` fails with -1 and does not invoke the
provider's `RSA_private_decrypt` primitive, whatever that primitive would
have returned. -/
theorem pk_private_decrypt_requires_private_component :
    ∀ (env : PkEnv) (k : RSAKey) (providerRet : Int),
      env.type = CRYPTO_PK_RSA → env.key = some k → k.p = none →
      crypto_pk_private_decrypt env providerRet = some (-1, false) := by
  intro env k providerRet ht hk hp
  simp [crypto_pk_private_decrypt, ht, hk, hp]

/-- C5 witness: a handle holding a public-only key (modulus and exponent
present, `p` NULL) refuses to decrypt without calling the provider. -/
theorem pk_private_decrypt_requires_private_component_witness :
    crypto_pk_private_decrypt ⟨CRYPTO_PK_RSA, 1, some ⟨some 7, some 3, none⟩⟩ 99 =
      some (-1, false) :=
  pk_private_decrypt_requires_private_component
    ⟨CRYPTO_PK_RSA, 1, some ⟨some 7, some 3, none⟩⟩ ⟨some 7, some 3, none⟩ 99
    rfl rfl rfl

/-- C6: the registry length functions are pure functions of the tag (their
stability across repeated calls is purity by construction in this
embedding), and whenever `crypto_new_cipher_env` returns a handle, its key
and IV buffers have exactly the registry lengths, with no buffer allocated
when the corresponding length is zero. -/
theorem cipher_create_buffer_sizes_match_registry :
    ∀ (t : CipherType) (envOk ivOk keyOk : Bool) (env : CipherEnv),
      (crypto_new_cipher_env t envOk ivOk keyOk).1 = some env →
      env.type = t ∧
      (crypto_cipher_iv_length t = 0 → env.iv = none) ∧
      (crypto_cipher_iv_length t ≠ 0 →
        ∃ b, env.iv = some b ∧ b.length = crypto_cipher_iv_length t) ∧
      (crypto_cipher_key_length t = 0 → env.key = none) ∧
      (crypto_cipher_key_length t ≠ 0 →
        ∃ b, env.key = some b ∧ b.length = crypto_cipher_key_length t) := by
  intro t envOk ivOk keyOk env h
  cases t <;> cases envOk <;> cases ivOk <;> cases keyOk <;>
    simp_all [crypto_new_cipher_env, newCipherErrFrees, crypto_cipher_iv_length,
      crypto_cipher_key_length] <;>
    (subst h; simp)

/-- C6 witness: the size theorem applied to the handle produced by a fully
successful RC4 construction. -/
theorem cipher_create_buffer_sizes_match_registry_witness :
    ∃ b, (⟨CipherType.rc4, some (List.replicate 16 0), some (List.replicate 16 0),
        true⟩ : CipherEnv).iv = some b ∧
      b.length = crypto_cipher_iv_length CipherType.rc4 :=
  (cipher_create_buffer_sizes_match_registry CipherType.rc4 true true true
    ⟨CipherType.rc4, some (List.replicate 16 0), some (List.replicate 16 0), true⟩
    rfl).2.2.1 (by decide)

/-- C7: `crypto_cipher_set_iv` and `crypto_cipher_set_key` are successful
no-ops when the tag's required length is zero, fail with -1 and write
nothing when the handle has no buffer for a non-zero requirement, and
otherwise copy exactly the required number of bytes from the caller's
buffer into the owned buffer. -/
theorem cipher_set_key_iv_copy_exact :
    ∀ (env : CipherEnv) (src : Nat → Nat),
      (crypto_cipher_iv_length env.type = 0 →
        crypto_cipher_set_iv env src = (0, env)) ∧
      (crypto_cipher_iv_length env.type ≠ 0 → env.iv = none →
        crypto_cipher_set_iv env src = (-1, env)) ∧
      (∀ b, crypto_cipher_iv_length env.type ≠ 0 → env.iv = some b →
        crypto_cipher_set_iv env src =
          (0, { env with iv := some ((List.range
                  (crypto_cipher_iv_length env.type)).map src) })) ∧
      (crypto_cipher_key_length env.type = 0 →
        crypto_cipher_set_key env src = (0, env)) ∧
      (crypto_cipher_key_length env.type ≠ 0 → env.key = none →
        crypto_cipher_set_key env src = (-1, env)) ∧
      (∀ b, crypto_cipher_key_length env.type ≠ 0 → env.key = some b →
        crypto_cipher_set_key env src =
          (0, { env with key := some ((List.range
                  (crypto_cipher_key_length env.type)).map src) })) := by
  intro env src
  refine ⟨?_, ?_, ?_, ?_, ?_, ?_⟩
  · intro h
    simp [crypto_cipher_set_iv, h]
  · intro h hiv
    simp [crypto_cipher_set_iv, h, hiv]
  · intro b h hiv
    simp [crypto_cipher_set_iv, h, hiv]
  · intro h
    simp [crypto_cipher_set_key, h]
  · intro h hkey
    simp [crypto_cipher_set_key, h, hkey]
  · intro b h hkey
    simp [crypto_cipher_set_key, h, hkey]

/-- C7 witness: setting the IV of a DES handle copies exactly the 8
required bytes; setting the key of an identity-cipher handle is a no-op. -/
theorem cipher_set_key_iv_copy_exact_witness :
    crypto_cipher_set_iv
        ⟨CipherType.des, some (List.replicate 8 0), some (List.replicate 8 0), true⟩
        (fun i => i) =
      (0, ⟨CipherType.des, some (List.replicate 8 0),
        some ((List.range 8).map (fun i => i)), true⟩) ∧
    crypto_cipher_set_key ⟨CipherType.identity, none, none, false⟩ (fun i => i) =
      (0, ⟨CipherType.identity, none, none, false⟩) := by
  constructor
  · exact (cipher_set_key_iv_copy_exact
      ⟨CipherType.des, some (List.replicate 8 0), some (List.replicate 8 0), true⟩
      (fun i => i)).2.2.1 (List.replicate 8 0) (by decide) rfl
  · exact (cipher_set_key_iv_copy_exact
      ⟨CipherType.identity, none, none, false⟩ (fun i => i)).2.2.2.1 (by decide)

/-- C8: `crypto_rand` reports failure exactly when the provider's strong
entropy call does not return success (1) for the requested byte count, and
`crypto_pseudo_rand` reports failure exactly when the provider's
pseudo-random call reports error (-1); each returns a nonzero status on
provider failure rather than reporting success, and the two failure
conditions are distinct: a weak-but-delivered outcome (0) fails the strong
facade and succeeds the fast one. -/
theorem random_facade_failure_conditions :
    ∀ (n : Nat) (strongRet fastRet : Nat → Int),
      (crypto_rand n strongRet = 0 ↔ strongRet n = 1) ∧
      (crypto_rand n strongRet = 0 ∨ crypto_rand n strongRet = 1) ∧
      (crypto_pseudo_rand n fastRet = 0 ↔ fastRet n ≠ -1) ∧
      (crypto_pseudo_rand n fastRet = 0 ∨ crypto_pseudo_rand n fastRet = 1) ∧
      (crypto_rand n (fun _ => 0) = 1 ∧ crypto_pseudo_rand n (fun _ => 0) = 0) := by
  intro n strongRet fastRet
  refine ⟨?_, ?_, ?_, ?_, by simp [crypto_rand], by simp [crypto_pseudo_rand]⟩
  · unfold crypto_rand
    split_ifs with h
    · simp [h]
    · simp [not_not.mp (fun hh => h hh)]
  · unfold crypto_rand
    split_ifs <;> simp
  · unfold crypto_pseudo_rand
    split_ifs with h
    · simp [h]
    · simp [h]
  · unfold crypto_pseudo_rand
    split_ifs <;> simp

/-- C9: on an RSA handle that already holds key material, a generate or
load operation frees the old key before the attempt, so when the provider
fails the handle is left with an empty key slot (and reports -1): the
replacement is not atomic on error. -/
theorem pk_key_replacement_not_atomic :
    ∀ (env : PkEnv) (k : RSAKey), env.type = CRYPTO_PK_RSA → env.key = some k →
      crypto_pk_generate_key env none =
        (-1, { env with key := none }, [Ev.free .rsaKeyRes]) ∧
      crypto_pk_read_private_key_from_file env none =
        (-1, { env with key := none }, [Ev.free .rsaKeyRes]) ∧
      crypto_pk_read_public_key_from_string env none =
        (-1, { env with key := none }, [Ev.free .rsaKeyRes]) := by
  intro env k ht hk
  refine ⟨?_, ?_, ?_⟩ <;>
    simp [crypto_pk_generate_key, crypto_pk_read_private_key_from_file,
      crypto_pk_read_public_key_from_string, ht, hk]

/-- C9 witness: a failed key generation on a handle holding key material
leaves the slot empty, having freed the old key. -/
theorem pk_key_replacement_not_atomic_witness :
    crypto_pk_generate_key ⟨CRYPTO_PK_RSA, 1, some ⟨some 7, some 3, some 5⟩⟩ none =
      (-1, ⟨CRYPTO_PK_RSA, 1, none⟩, [Ev.free .rsaKeyRes]) :=
  (pk_key_replacement_not_atomic ⟨CRYPTO_PK_RSA, 1, some ⟨some 7, some 3, some 5⟩⟩
    ⟨some 7, some 3, some 5⟩ rfl rfl).1

/-- C10: `crypto_new_cipher_env` either returns a fully-constructed handle
(streaming context allocated, key and IV buffers present exactly when
their tag-derived lengths are non-zero) having released nothing, or
returns failure having released exactly the resources it had allocated,
the handle struct included. -/
theorem cipher_create_all_or_nothing :
    ∀ (t : CipherType) (envOk ivOk keyOk : Bool),
      (∀ env, (crypto_new_cipher_env t envOk ivOk keyOk).1 = some env →
        freesOf (crypto_new_cipher_env t envOk ivOk keyOk).2 = [] ∧
        env.aux = true ∧
        (env.iv.isSome = true ↔ crypto_cipher_iv_length t ≠ 0) ∧
        (env.key.isSome = true ↔ crypto_cipher_key_length t ≠ 0)) ∧
      ((crypto_new_cipher_env t envOk ivOk keyOk).1 = none →
        List.Perm (freesOf (crypto_new_cipher_env t envOk ivOk keyOk).2)
          (allocsOf (crypto_new_cipher_env t envOk ivOk keyOk).2)) := by
  intro t envOk ivOk keyOk
  constructor
  · intro env h
    cases t <;> cases envOk <;> cases ivOk <;> cases keyOk <;>
      simp_all [crypto_new_cipher_env, newCipherErrFrees, freesOf, allocsOf,
        crypto_cipher_iv_length, crypto_cipher_key_length] <;>
      (subst h; simp)
  · cases t <;> cases envOk <;> cases ivOk <;> cases keyOk <;> decide

/-- C10 witness: an RC4 construction whose key-buffer allocation fails
releases exactly what it had allocated (IV buffer, streaming context and
the handle struct). -/
theorem cipher_create_all_or_nothing_witness :
    List.Perm (freesOf (crypto_new_cipher_env CipherType.rc4 true true false).2)
      (allocsOf (crypto_new_cipher_env CipherType.rc4 true true false).2) :=
  (cipher_create_all_or_nothing CipherType.rc4 true true false).2 rfl

end TorCrypto
